import Mathlib

/-!
Verification development for the SpatialAudioSynthesis repository.

The main embedded component is the frontend audio service
(src/frontend/src/services/EnhancedAudioSynthesisService.ts): its
distance-to-volume mapping, distance effects (pitch / filter / reverb),
per-device track state, and the public mutators.  Numbers of the source
(JavaScript doubles) are embedded as real numbers; the Web Audio node
values that a playing track applies are modelled by an explicit
`applied` field holding the values the code pushes with setValueAtTime.

The trilateration solver of the spec has no source under src/ (only
design documents), so it is modelled from the spec, clearly marked.
-/

noncomputable section

namespace SpatialAudio

/-- clamp x into the interval from lo to hi, written as the source does with
Math.max / Math.min. -/
def clamp (lo hi x : ℝ) : ℝ := max lo (min hi x)

/-- Embedding of the VolumeCurve union type of
EnhancedAudioSynthesisService.ts. -/
inductive VolumeCurve
  | inverse_square
  | exponential
  | logarithmic
  | linear

/-- Embedding of the DistanceEffects configuration record. -/
structure DistanceEffects where
  enabled : Bool
  pitchEffect : Bool
  filterEffect : Bool
  reverbEffect : Bool
  pitchRange : ℝ
  filterRange : ℝ
  reverbRange : ℝ

/-- Values a playing track has pushed to its Web Audio nodes
(gainNode.gain, playbackRate / oscillator rate factor, filterNode
frequency, reverbNode delayTime). -/
structure AppliedParams where
  gain : ℝ
  rate : ℝ
  cutoff : ℝ
  delay : ℝ

/-- Embedding of the AudioTrack record of EnhancedAudioSynthesisService.ts.
The audio nodes are represented by the `applied` values they carry while
the track is playing (none when stopped). -/
structure AudioTrack where
  volume : ℝ
  nodeVolume : ℝ
  pitch : ℝ
  reverb : ℝ
  filter : ℝ
  distancePitch : ℝ
  distanceFilter : ℝ
  distanceReverb : ℝ
  playing : Bool
  applied : Option AppliedParams

/-- Embedding of the mutable private state of EnhancedAudioSynthesisService.
The Map of tracks is a function from device id to an optional track;
hasContext models whether the AudioContext was initialized. -/
structure ServiceState where
  tracks : String → Option AudioTrack
  globalVolume : ℝ
  maxVolumeLimit : ℝ
  maxDistance : ℝ
  minDistance : ℝ
  volumeCurve : VolumeCurve
  distanceEffects : DistanceEffects
  hasContext : Bool

/-- Distance clamped to the configured range and normalized, exactly the
first two lines of calculateVolumeFromDistance (and of
calculateDistanceEffects). -/
def normalizedDistance (s : ServiceState) (distance : ℝ) : ℝ :=
  (max s.minDistance (min s.maxDistance distance) - s.minDistance) /
    (s.maxDistance - s.minDistance)

/-- The switch statement of calculateVolumeFromDistance: the raw volume
ratio for a given curve at a given normalized distance. -/
def volumeRatio (c : VolumeCurve) (n : ℝ) : ℝ :=
  match c with
  | .inverse_square => min 1 ((1 / ((n * 0.9 + 0.1) * (n * 0.9 + 0.1))) / 100)
  | .exponential => Real.exp (-(4 * n))
  | .logarithmic => max 0 (1 - Real.logb 10 (n * 9 + 1))
  | .linear => 1 - n

/-- Embedding of calculateVolumeFromDistance. -/
def calculateVolumeFromDistance (s : ServiceState) (distance : ℝ) : ℝ :=
  max 0 (min 1 (volumeRatio s.volumeCurve (normalizedDistance s distance))) *
    s.maxVolumeLimit

/-- Result record of calculateDistanceEffects. -/
structure Effects where
  pitch : ℝ
  filter : ℝ
  reverb : ℝ

/-- Embedding of calculateDistanceEffects. -/
def calculateDistanceEffects (s : ServiceState) (distance : ℝ) : Effects :=
  if s.distanceEffects.enabled = false then ⟨1, 1, 0⟩
  else
    let n := normalizedDistance s distance
    let pitch :=
      if s.distanceEffects.pitchEffect then
        clamp 0.5 2
          (1 + (1 - n) * s.distanceEffects.pitchRange * 0.5 -
            s.distanceEffects.pitchRange * 0.25)
      else 1
    let filter :=
      if s.distanceEffects.filterEffect then
        clamp 0.1 1 (0.3 + (1 - n) * s.distanceEffects.filterRange)
      else 1
    let reverb :=
      if s.distanceEffects.reverbEffect then
        clamp 0 0.8 (n * s.distanceEffects.reverbRange)
      else 0
    ⟨pitch, filter, reverb⟩

/-- Embedding of updateAudioTrack: when the track is playing and the
context exists, the combined values are pushed to the audio nodes. -/
def updateAudioTrack (s : ServiceState) (tr : AudioTrack) : AudioTrack :=
  if tr.playing = true ∧ s.hasContext = true then
    { tr with
      applied := some
        { gain := tr.volume * tr.nodeVolume * s.globalVolume
          rate := tr.pitch * tr.distancePitch
          cutoff := 22050 * (tr.filter * tr.distanceFilter)
          delay := 0.03 + min 0.5 (tr.reverb + tr.distanceReverb) * 0.1 } }
  else tr

/-- Functional update of the track map at one device id. -/
def setTrack (tracks : String → Option AudioTrack) (deviceId : String)
    (tr : Option AudioTrack) : String → Option AudioTrack :=
  fun d => if d = deviceId then tr else tracks d

/-- Embedding of startAudioTrack: early return when the track is missing,
already playing, or there is no audio context; otherwise playback starts
and updateAudioTrack runs. -/
def startAudioTrack (s : ServiceState) (deviceId : String) : ServiceState :=
  match s.tracks deviceId with
  | none => s
  | some tr =>
    if tr.playing = true ∨ s.hasContext = false then s
    else
      let tr1 := updateAudioTrack s { tr with playing := true }
      { s with tracks := setTrack s.tracks deviceId (some tr1) }

/-- Embedding of stopAudioTrack: early return when the track is missing or
not playing; otherwise the nodes are stopped and disconnected and playing
becomes false. -/
def stopAudioTrack (s : ServiceState) (deviceId : String) : ServiceState :=
  match s.tracks deviceId with
  | none => s
  | some tr =>
    if tr.playing = false then s
    else
      let tr1 : AudioTrack := { tr with playing := false, applied := none }
      { s with tracks := setTrack s.tracks deviceId (some tr1) }

/-- Embedding of updateSensorDistance: recompute volume and effects, write
them into the track, push them to the nodes if the track is playing, then
auto start / stop on the volume threshold. -/
def updateSensorDistance (s : ServiceState) (deviceId : String)
    (distance : ℝ) : ServiceState :=
  match s.tracks deviceId with
  | none => s
  | some tr =>
    let newVolume := calculateVolumeFromDistance s distance
    let effects := calculateDistanceEffects s distance
    let tr1 : AudioTrack :=
      { tr with
        volume := newVolume
        distancePitch := effects.pitch
        distanceFilter := effects.filter
        distanceReverb := effects.reverb }
    let tr2 := if tr1.playing = true then updateAudioTrack s tr1 else tr1
    let s1 := { s with tracks := setTrack s.tracks deviceId (some tr2) }
    if newVolume > 0 ∧ tr2.playing = false then startAudioTrack s1 deviceId
    else if newVolume = 0 ∧ tr2.playing = true then stopAudioTrack s1 deviceId
    else s1

/-- Shared shape of the four per-track user setters: look the track up,
update one field, push to the nodes when playing, missing track is a
silent no-op. -/
def withTrack (s : ServiceState) (deviceId : String)
    (f : AudioTrack → AudioTrack) : ServiceState :=
  match s.tracks deviceId with
  | none => s
  | some tr =>
    let tr1 := f tr
    let tr2 := if tr1.playing = true then updateAudioTrack s tr1 else tr1
    { s with tracks := setTrack s.tracks deviceId (some tr2) }

/-- Embedding of setTrackVolume. -/
def setTrackVolume (s : ServiceState) (deviceId : String) (volume : ℝ) :
    ServiceState :=
  withTrack s deviceId fun tr => { tr with nodeVolume := clamp 0 1 volume }

/-- Embedding of setTrackPitch. -/
def setTrackPitch (s : ServiceState) (deviceId : String) (pitch : ℝ) :
    ServiceState :=
  withTrack s deviceId fun tr => { tr with pitch := clamp 0.5 2 pitch }

/-- Embedding of setTrackReverb. -/
def setTrackReverb (s : ServiceState) (deviceId : String) (reverb : ℝ) :
    ServiceState :=
  withTrack s deviceId fun tr => { tr with reverb := clamp 0 1 reverb }

/-- Embedding of setTrackFilter. -/
def setTrackFilter (s : ServiceState) (deviceId : String) (filter : ℝ) :
    ServiceState :=
  withTrack s deviceId fun tr => { tr with filter := clamp 0.1 1 filter }

/-- Embedding of setVolumeCurve. -/
def setVolumeCurve (s : ServiceState) (curve : VolumeCurve) : ServiceState :=
  { s with volumeCurve := curve }

/-- Embedding of setDistanceRange: minDistance is floored at 0 and
maxDistance at minDistance + 1, for any argument pair. -/
def setDistanceRange (s : ServiceState) (minDistance maxDistance : ℝ) :
    ServiceState :=
  let mn := max 0 minDistance
  { s with minDistance := mn, maxDistance := max (mn + 1) maxDistance }

/-- Embedding of setVolumeLimit. -/
def setVolumeLimit (s : ServiceState) (limit : ℝ) : ServiceState :=
  { s with maxVolumeLimit := max 0.1 (min 1 limit) }

/-- Embedding of setGlobalVolume: clamp, then update every playing track. -/
def setGlobalVolume (s : ServiceState) (volume : ℝ) : ServiceState :=
  let s1 := { s with globalVolume := clamp 0 1 volume }
  let refresh : AudioTrack → AudioTrack :=
    fun tr => if tr.playing = true then updateAudioTrack s1 tr else tr
  { s1 with tracks := fun d => (s1.tracks d).map refresh }

/-- Partial DistanceEffects update, the argument of setDistanceEffects. -/
structure PartialDistanceEffects where
  enabled : Option Bool := none
  pitchEffect : Option Bool := none
  filterEffect : Option Bool := none
  reverbEffect : Option Bool := none
  pitchRange : Option ℝ := none
  filterRange : Option ℝ := none
  reverbRange : Option ℝ := none

/-- Embedding of setDistanceEffects: spread of the partial record over the
current one. -/
def setDistanceEffects (s : ServiceState) (p : PartialDistanceEffects) :
    ServiceState :=
  { s with distanceEffects :=
      { enabled := p.enabled.getD s.distanceEffects.enabled
        pitchEffect := p.pitchEffect.getD s.distanceEffects.pitchEffect
        filterEffect := p.filterEffect.getD s.distanceEffects.filterEffect
        reverbEffect := p.reverbEffect.getD s.distanceEffects.reverbEffect
        pitchRange := p.pitchRange.getD s.distanceEffects.pitchRange
        filterRange := p.filterRange.getD s.distanceEffects.filterRange
        reverbRange := p.reverbRange.getD s.distanceEffects.reverbRange } }

/-- A fresh track as built by setAudioTrack. -/
def freshTrack : AudioTrack :=
  { volume := 0, nodeVolume := 0.7, pitch := 1, reverb := 0.2, filter := 1
    distancePitch := 1, distanceFilter := 1, distanceReverb := 0
    playing := false, applied := none }

/-- Embedding of setAudioTrack: stop an existing track, then install a
fresh one. -/
def setAudioTrack (s : ServiceState) (deviceId : String) : ServiceState :=
  let s1 := if (s.tracks deviceId).isSome then stopAudioTrack s deviceId else s
  { s1 with tracks := setTrack s1.tracks deviceId (some freshTrack) }

/-- Embedding of removeAudioTrack. -/
def removeAudioTrack (s : ServiceState) (deviceId : String) : ServiceState :=
  let s1 := stopAudioTrack s deviceId
  { s1 with tracks := setTrack s1.tracks deviceId none }

/-- The public mutating operations of the service, used to quantify over
call sequences. -/
inductive Op
  | setVolumeCurve (curve : VolumeCurve)
  | setDistanceRange (minDistance maxDistance : ℝ)
  | setVolumeLimit (limit : ℝ)
  | setGlobalVolume (volume : ℝ)
  | setDistanceEffects (p : PartialDistanceEffects)
  | setAudioTrack (deviceId : String)
  | removeAudioTrack (deviceId : String)
  | updateSensorDistance (deviceId : String) (distance : ℝ)
  | startAudioTrack (deviceId : String)
  | stopAudioTrack (deviceId : String)
  | setTrackVolume (deviceId : String) (volume : ℝ)
  | setTrackPitch (deviceId : String) (pitch : ℝ)
  | setTrackReverb (deviceId : String) (reverb : ℝ)
  | setTrackFilter (deviceId : String) (filter : ℝ)

/-- Interpretation of one public call. -/
def applyOp (s : ServiceState) : Op → ServiceState
  | .setVolumeCurve c => setVolumeCurve s c
  | .setDistanceRange a b => setDistanceRange s a b
  | .setVolumeLimit l => setVolumeLimit s l
  | .setGlobalVolume v => setGlobalVolume s v
  | .setDistanceEffects p => setDistanceEffects s p
  | .setAudioTrack d => setAudioTrack s d
  | .removeAudioTrack d => removeAudioTrack s d
  | .updateSensorDistance d x => updateSensorDistance s d x
  | .startAudioTrack d => startAudioTrack s d
  | .stopAudioTrack d => stopAudioTrack s d
  | .setTrackVolume d v => setTrackVolume s d v
  | .setTrackPitch d v => setTrackPitch s d v
  | .setTrackReverb d v => setTrackReverb s d v
  | .setTrackFilter d v => setTrackFilter s d v

/-- Interpretation of a call sequence. -/
def applyOps (s : ServiceState) (ops : List Op) : ServiceState :=
  ops.foldl applyOp s

/-- The field initializers of EnhancedAudioSynthesisService, after the
constructor initialized the audio context. -/
def initialState : ServiceState :=
  { tracks := fun _ => none
    globalVolume := 0.7
    maxVolumeLimit := 0.8
    maxDistance := 200
    minDistance := 5
    volumeCurve := .inverse_square
    distanceEffects :=
      { enabled := true, pitchEffect := true, filterEffect := true
        reverbEffect := true, pitchRange := 0.3, filterRange := 0.7
        reverbRange := 0.4 }
    hasContext := true }

lemma normalizedDistance_nonneg (s : ServiceState) (d : ℝ) :
    0 ≤ normalizedDistance s d := by
  unfold normalizedDistance
  rcases lt_or_le s.minDistance s.maxDistance with h | h
  · apply div_nonneg
    · simp
    · linarith
  · have : min s.maxDistance d ≤ s.minDistance := le_trans (min_le_left _ _) h
    rw [max_eq_left this, sub_self, zero_div]

lemma normalizedDistance_mono (s : ServiceState) {d1 d2 : ℝ} (h : d1 ≤ d2) :
    normalizedDistance s d1 ≤ normalizedDistance s d2 := by
  unfold normalizedDistance
  rcases lt_or_le s.minDistance s.maxDistance with hlt | hle
  · apply div_le_div_of_nonneg_right ?_ (by linarith)
    exact sub_le_sub_right (max_le_max le_rfl (min_le_min le_rfl h)) _
  · have e1 : min s.maxDistance d1 ≤ s.minDistance :=
      le_trans (min_le_left _ _) hle
    have e2 : min s.maxDistance d2 ≤ s.minDistance :=
      le_trans (min_le_left _ _) hle
    rw [max_eq_left e1, max_eq_left e2]

lemma volumeRatio_antitone (c : VolumeCurve) {t1 t2 : ℝ} (h0 : 0 ≤ t1)
    (h : t1 ≤ t2) : volumeRatio c t2 ≤ volumeRatio c t1 := by
  cases c
  · show min 1 ((1 / ((t2 * 0.9 + 0.1) * (t2 * 0.9 + 0.1))) / 100) ≤
      min 1 ((1 / ((t1 * 0.9 + 0.1) * (t1 * 0.9 + 0.1))) / 100)
    gcongr
    nlinarith
  · exact Real.exp_le_exp.mpr (by linarith)
  · show max 0 (1 - Real.logb 10 (t2 * 9 + 1)) ≤
      max 0 (1 - Real.logb 10 (t1 * 9 + 1))
    gcongr
    nlinarith
  · show 1 - t2 ≤ 1 - t1
    linarith

/-- C2: for every distance and every configuration with a nonnegative
volume limit, the final volume of calculateVolumeFromDistance equals
clamp(minVolume + (maxVolume - minVolume) * volumeRatio(t), 0, volumeLimit)
where t is the distance clamped to the configured range and normalized to
the unit interval; in this service minVolume is 0 and maxVolume and
volumeLimit are both the configured maxVolumeLimit. -/
theorem c2_final_volume_clamp_formula (s : ServiceState) (d : ℝ)
    (h : 0 ≤ s.maxVolumeLimit) :
    calculateVolumeFromDistance s d =
      clamp 0 s.maxVolumeLimit
        (0 + (s.maxVolumeLimit - 0) *
          volumeRatio s.volumeCurve (normalizedDistance s d)) := by
  unfold calculateVolumeFromDistance clamp
  have h1 : (0:ℝ) + (s.maxVolumeLimit - 0) *
      volumeRatio s.volumeCurve (normalizedDistance s d) =
      s.maxVolumeLimit * volumeRatio s.volumeCurve (normalizedDistance s d) := by
    ring
  rw [h1, mul_comm, mul_max_of_nonneg _ _ h, mul_min_of_nonneg _ _ h, mul_zero,
    mul_one]

/-- Witness for C2 at the initial configuration and distance 100. -/
theorem c2_final_volume_clamp_formula_witness :
    calculateVolumeFromDistance initialState 100 =
      clamp 0 initialState.maxVolumeLimit
        (0 + (initialState.maxVolumeLimit - 0) *
          volumeRatio initialState.volumeCurve
            (normalizedDistance initialState 100)) :=
  c2_final_volume_clamp_formula initialState 100 (by norm_num [initialState])

/-- C3: with a nonnegative volume limit (an invariant of the service,
whose limit always lies between 0.1 and 1), the computed volume is
monotonically non-increasing in the distance for every curve type. -/
theorem c3_volume_antitone_in_distance (s : ServiceState) (d1 d2 : ℝ)
    (hL : 0 ≤ s.maxVolumeLimit) (h : d1 ≤ d2) :
    calculateVolumeFromDistance s d2 ≤ calculateVolumeFromDistance s d1 := by
  unfold calculateVolumeFromDistance
  apply mul_le_mul_of_nonneg_right ?_ hL
  apply max_le_max le_rfl
  apply min_le_min le_rfl
  exact volumeRatio_antitone s.volumeCurve (normalizedDistance_nonneg s d1)
    (normalizedDistance_mono s h)

/-- Witness for C3 at the initial configuration, distances 100 and 150. -/
theorem c3_volume_antitone_in_distance_witness :
    calculateVolumeFromDistance initialState 150 ≤
      calculateVolumeFromDistance initialState 100 :=
  c3_volume_antitone_in_distance initialState 100 150
    (by norm_num [initialState]) (by norm_num)

/-- C4: on the unit interval the volume ratio matches the curve formulas
of the spec: linear is 1 - t, exponential is exp(-k t) with the default
k = 4 (the decay constant the code fixes), logarithmic is
1 - log10(1 + 9 t), and inverse-square is 1 / (eps + t)^2 with eps = 1/9,
normalized by its value at t = 0 (the factor eps^2) so that it lies in
the unit interval. -/
theorem c4_volume_ratio_curve_formulas (t : ℝ) (h0 : 0 ≤ t) (h1 : t ≤ 1) :
    volumeRatio .linear t = 1 - t ∧
    volumeRatio .exponential t = Real.exp (-(4 * t)) ∧
    volumeRatio .logarithmic t = 1 - Real.logb 10 (1 + 9 * t) ∧
    volumeRatio .inverse_square t = (1 / ((1/9 + t)^2)) * (1/9)^2 ∧
    volumeRatio .inverse_square t ∈ Set.Icc (0:ℝ) 1 := by
  have hpos : (0:ℝ) < t * 0.9 + 0.1 := by nlinarith
  have hlog : Real.logb 10 (t * 9 + 1) ≤ 1 := by
    have h10 : (1:ℝ) < 10 := by norm_num
    have := Real.logb_le_logb_of_le h10 (by nlinarith : (0:ℝ) < t * 9 + 1)
      (by nlinarith : t * 9 + 1 ≤ 10)
    simpa [Real.logb_self_eq_one h10] using this
  have hinv : (1 / ((t * 0.9 + 0.1) * (t * 0.9 + 0.1))) / 100 =
      1 / (9 * t + 1)^2 := by
    rw [div_div]
    congr 1
    ring
  have hle1 : (1:ℝ) / (9 * t + 1)^2 ≤ 1 := by
    rw [div_le_one (by positivity)]
    nlinarith
  refine ⟨rfl, rfl, ?_, ?_, ?_, ?_⟩
  · show max 0 (1 - Real.logb 10 (t * 9 + 1)) = 1 - Real.logb 10 (1 + 9 * t)
    rw [max_eq_right (by linarith)]
    ring_nf
  · show min 1 ((1 / ((t * 0.9 + 0.1) * (t * 0.9 + 0.1))) / 100) = _
    rw [hinv, min_eq_right hle1]
    have hne1 : (9 * t + 1 : ℝ) ≠ 0 := by nlinarith
    have hne2 : (1 / 9 + t : ℝ) ≠ 0 := by positivity
    field_simp
    ring
  · show 0 ≤ min 1 ((1 / ((t * 0.9 + 0.1) * (t * 0.9 + 0.1))) / 100)
    positivity
  · show min 1 ((1 / ((t * 0.9 + 0.1) * (t * 0.9 + 0.1))) / 100) ≤ 1
    exact min_le_left _ _

/-- Witness for C4 at t = 1/2. -/
theorem c4_volume_ratio_curve_formulas_witness :
    volumeRatio .linear (1/2) = 1 - 1/2 ∧
    volumeRatio .exponential (1/2) = Real.exp (-(4 * (1/2))) ∧
    volumeRatio .logarithmic (1/2) = 1 - Real.logb 10 (1 + 9 * (1/2)) ∧
    volumeRatio .inverse_square (1/2) = (1 / ((1/9 + 1/2)^2)) * (1/9)^2 ∧
    volumeRatio .inverse_square (1/2) ∈ Set.Icc (0:ℝ) 1 :=
  c4_volume_ratio_curve_formulas (1/2) (by norm_num) (by norm_num)

/-- C5: at the default configuration (pitchRange 0.3, pitch effect on)
and distance equal to minDistance (normalized distance 0), the code
computes pitch 1 + (1-t) * pitchRange * 0.5 - pitchRange * 0.25 = 1.075,
not the documented 1 + (1-t) * pitchRange - pitchRange / 2 = 1.15: the
implementation uses half the configured pitch range. -/
theorem c5_pitch_formula_halved_at_min_distance :
    (calculateDistanceEffects initialState 5).pitch = 1.075 ∧
    (1.075 : ℝ) ≠ 1 + (1 - 0) * 0.3 - 0.3 / 2 := by
  constructor
  · simp only [calculateDistanceEffects, initialState, normalizedDistance, clamp]
    norm_num [min_def, max_def]
  · norm_num

/-- The DistanceEffects record with every toggle off. -/
def effectsAllOff : DistanceEffects :=
  { enabled := false, pitchEffect := false, filterEffect := false
    reverbEffect := false, pitchRange := 0.3, filterRange := 0.7
    reverbRange := 0.4 }

/-- The initial configuration with the linear curve and all distance
effects disabled. -/
def stateAllOff : ServiceState :=
  { initialState with volumeCurve := .linear, distanceEffects := effectsAllOff }

/-- The initial configuration with the linear curve, all effects on. -/
def stateAllOn : ServiceState :=
  { initialState with volumeCurve := .linear }

/-- C6 counterexample: the distance-to-volume mapping has no disable
toggle: with every distance-effect flag off it returns exactly the same
values as with every flag on, still varying with distance (0.8 at the
minimum distance, 0 at the maximum) instead of any neutral value, so the
volume sub-mapping cannot be disabled. -/
theorem c6_volume_not_disabled_by_effect_toggles :
    calculateVolumeFromDistance stateAllOff 5 =
      calculateVolumeFromDistance stateAllOn 5 ∧
    calculateVolumeFromDistance stateAllOff 5 = 0.8 ∧
    calculateVolumeFromDistance stateAllOff 200 = 0 ∧
    (0.8 : ℝ) ≠ 0 := by
  refine ⟨?_, ?_, ?_, by norm_num⟩ <;>
    norm_num [calculateVolumeFromDistance, volumeRatio, normalizedDistance,
      stateAllOff, stateAllOn, initialState, min_def, max_def]

/-- C6 amended: the three distance-effect sub-mappings pitch, filter and
reverb are independently togglable (individually or through the master
enabled flag) and return their neutral values 1, 1 (the filter maximum)
and 0 when disabled, while the volume mapping is unaffected by the
distance-effect flags altogether. -/
theorem c6_disabled_effects_neutral (s : ServiceState) (d : ℝ) :
    (s.distanceEffects.enabled = false ∨ s.distanceEffects.pitchEffect = false →
      (calculateDistanceEffects s d).pitch = 1) ∧
    (s.distanceEffects.enabled = false ∨ s.distanceEffects.filterEffect = false →
      (calculateDistanceEffects s d).filter = 1) ∧
    (s.distanceEffects.enabled = false ∨ s.distanceEffects.reverbEffect = false →
      (calculateDistanceEffects s d).reverb = 0) ∧
    (∀ de : DistanceEffects,
      calculateVolumeFromDistance { s with distanceEffects := de } d =
        calculateVolumeFromDistance s d) := by
  refine ⟨?_, ?_, ?_, ?_⟩
  · intro h
    rcases h with h | h
    · simp [calculateDistanceEffects, h]
    · cases he : s.distanceEffects.enabled
      · simp [calculateDistanceEffects, he]
      · simp [calculateDistanceEffects, he, h]
  · intro h
    rcases h with h | h
    · simp [calculateDistanceEffects, h]
    · cases he : s.distanceEffects.enabled
      · simp [calculateDistanceEffects, he]
      · simp [calculateDistanceEffects, he, h]
  · intro h
    rcases h with h | h
    · simp [calculateDistanceEffects, h]
    · cases he : s.distanceEffects.enabled
      · simp [calculateDistanceEffects, he]
      · simp [calculateDistanceEffects, he, h]
  · intro de
    simp [calculateVolumeFromDistance, normalizedDistance]

/-- Witness for the amended C6: with all distance effects off, the
effects are neutral and a toggle flip leaves the volume unchanged. -/
theorem c6_disabled_effects_neutral_witness :
    (calculateDistanceEffects stateAllOff 42).pitch = 1 ∧
    (calculateDistanceEffects stateAllOff 42).filter = 1 ∧
    (calculateDistanceEffects stateAllOff 42).reverb = 0 ∧
    calculateVolumeFromDistance
        { stateAllOff with distanceEffects := initialState.distanceEffects }
        42 =
      calculateVolumeFromDistance stateAllOff 42 := by
  have h := c6_disabled_effects_neutral stateAllOff 42
  exact ⟨h.1 (Or.inl rfl), h.2.1 (Or.inl rfl), h.2.2.1 (Or.inl rfl),
    h.2.2.2 initialState.distanceEffects⟩

/-- C7: stopping a device whose track is playing sets playing to false on
the same call and tears down the audio nodes, for every state and every
track (no condition on any remaining playback duration exists). -/
theorem c7_stop_transitions_playing_to_idle (s : ServiceState)
    (deviceId : String) (tr : AudioTrack) (h : s.tracks deviceId = some tr)
    (hp : tr.playing = true) :
    (stopAudioTrack s deviceId).tracks deviceId =
      some { tr with playing := false, applied := none } := by
  unfold stopAudioTrack
  simp [h, hp, setTrack]

/-- A track mid-playback, as updateSensorDistance leaves it at distance
100 with applied gain 0.5. -/
def playingTrack : AudioTrack :=
  { volume := 0.5, nodeVolume := 1, pitch := 1, reverb := 0, filter := 1
    distancePitch := 1, distanceFilter := 1, distanceReverb := 0
    playing := true, applied := some ⟨0.5, 1, 22050, 0.03⟩ }

/-- A service state with one playing track for device dev1, linear curve,
distance effects off, global volume 1. -/
def statePlaying : ServiceState :=
  { initialState with
    volumeCurve := .linear
    globalVolume := 1
    distanceEffects := effectsAllOff
    tracks := setTrack (fun _ => none) "dev1" (some playingTrack) }

/-- Witness for C7: stopping the playing dev1 track. -/
theorem c7_stop_transitions_playing_to_idle_witness :
    (stopAudioTrack statePlaying "dev1").tracks "dev1" =
      some { playingTrack with playing := false, applied := none } :=
  c7_stop_transitions_playing_to_idle statePlaying "dev1" playingTrack
    (by simp [statePlaying, setTrack]) rfl

/-- C10: on a device id with no registered track, updateSensorDistance
and the four per-track setters return the state unchanged: no track and
no configuration field moves. -/
theorem c10_missing_device_ops_noop (s : ServiceState) (deviceId : String)
    (d v p r f : ℝ) (h : s.tracks deviceId = none) :
    updateSensorDistance s deviceId d = s ∧
    setTrackVolume s deviceId v = s ∧
    setTrackPitch s deviceId p = s ∧
    setTrackReverb s deviceId r = s ∧
    setTrackFilter s deviceId f = s := by
  unfold updateSensorDistance setTrackVolume setTrackPitch setTrackReverb
    setTrackFilter withTrack
  refine ⟨?_, ?_, ?_, ?_, ?_⟩ <;> simp [h]

/-- Witness for C10: the initial state has no tracks, so the five
operations on an unknown device leave it untouched. -/
theorem c10_missing_device_ops_noop_witness :
    updateSensorDistance initialState "ghost" 50 = initialState ∧
    setTrackVolume initialState "ghost" 0.5 = initialState ∧
    setTrackPitch initialState "ghost" 1.2 = initialState ∧
    setTrackReverb initialState "ghost" 0.3 = initialState ∧
    setTrackFilter initialState "ghost" 0.9 = initialState :=
  c10_missing_device_ops_noop initialState "ghost" 50 0.5 1.2 0.3 0.9 rfl

/-- Two states agree on the configured distance range. -/
def sameRange (s1 s2 : ServiceState) : Prop :=
  s1.minDistance = s2.minDistance ∧ s1.maxDistance = s2.maxDistance

lemma stopAudioTrack_sameRange (s : ServiceState) (dev : String) :
    sameRange (stopAudioTrack s dev) s := by
  unfold stopAudioTrack
  rcases h : s.tracks dev with _ | tr <;> simp only [h]
  · exact ⟨rfl, rfl⟩
  · split
    · exact ⟨rfl, rfl⟩
    · exact ⟨rfl, rfl⟩

lemma startAudioTrack_sameRange (s : ServiceState) (dev : String) :
    sameRange (startAudioTrack s dev) s := by
  unfold startAudioTrack
  rcases h : s.tracks dev with _ | tr <;> simp only [h]
  · exact ⟨rfl, rfl⟩
  · split
    · exact ⟨rfl, rfl⟩
    · exact ⟨rfl, rfl⟩

lemma withTrack_sameRange (s : ServiceState) (dev : String)
    (f : AudioTrack → AudioTrack) : sameRange (withTrack s dev f) s := by
  unfold withTrack
  rcases h : s.tracks dev with _ | tr <;> simp only [h]
  · exact ⟨rfl, rfl⟩
  · exact ⟨rfl, rfl⟩

lemma updateSensorDistance_sameRange (s : ServiceState) (dev : String)
    (d : ℝ) : sameRange (updateSensorDistance s dev d) s := by
  unfold updateSensorDistance
  rcases h : s.tracks dev with _ | tr <;> simp only [h]
  · exact ⟨rfl, rfl⟩
  · split_ifs <;> first
      | exact startAudioTrack_sameRange _ _
      | exact stopAudioTrack_sameRange _ _
      | exact ⟨rfl, rfl⟩

lemma setAudioTrack_sameRange (s : ServiceState) (dev : String) :
    sameRange (setAudioTrack s dev) s := by
  unfold setAudioTrack
  split
  · exact stopAudioTrack_sameRange _ _
  · exact ⟨rfl, rfl⟩

lemma removeAudioTrack_sameRange (s : ServiceState) (dev : String) :
    sameRange (removeAudioTrack s dev) s :=
  stopAudioTrack_sameRange s dev

lemma applyOp_inv (s : ServiceState) (o : Op)
    (h : 0 ≤ s.minDistance ∧ s.minDistance + 1 ≤ s.maxDistance) :
    0 ≤ (applyOp s o).minDistance ∧
      (applyOp s o).minDistance + 1 ≤ (applyOp s o).maxDistance := by
  cases o with
  | setVolumeCurve c => exact h
  | setDistanceRange a b =>
    constructor
    · exact le_max_left 0 a
    · exact le_max_left _ b
  | setVolumeLimit l => exact h
  | setGlobalVolume v => exact h
  | setDistanceEffects p => exact h
  | setAudioTrack dev =>
    obtain ⟨e1, e2⟩ := setAudioTrack_sameRange s dev
    rw [applyOp, e1, e2]
    exact h
  | removeAudioTrack dev =>
    obtain ⟨e1, e2⟩ := removeAudioTrack_sameRange s dev
    rw [applyOp, e1, e2]
    exact h
  | updateSensorDistance dev d =>
    obtain ⟨e1, e2⟩ := updateSensorDistance_sameRange s dev d
    rw [applyOp, e1, e2]
    exact h
  | startAudioTrack dev =>
    obtain ⟨e1, e2⟩ := startAudioTrack_sameRange s dev
    rw [applyOp, e1, e2]
    exact h
  | stopAudioTrack dev =>
    obtain ⟨e1, e2⟩ := stopAudioTrack_sameRange s dev
    rw [applyOp, e1, e2]
    exact h
  | setTrackVolume dev v =>
    obtain ⟨e1, e2⟩ := withTrack_sameRange s dev _
    rw [applyOp, setTrackVolume, e1, e2]
    exact h
  | setTrackPitch dev v =>
    obtain ⟨e1, e2⟩ := withTrack_sameRange s dev _
    rw [applyOp, setTrackPitch, e1, e2]
    exact h
  | setTrackReverb dev v =>
    obtain ⟨e1, e2⟩ := withTrack_sameRange s dev _
    rw [applyOp, setTrackReverb, e1, e2]
    exact h
  | setTrackFilter dev v =>
    obtain ⟨e1, e2⟩ := withTrack_sameRange s dev _
    rw [applyOp, setTrackFilter, e1, e2]
    exact h

lemma applyOps_inv (ops : List Op) (s : ServiceState)
    (h : 0 ≤ s.minDistance ∧ s.minDistance + 1 ≤ s.maxDistance) :
    0 ≤ (applyOps s ops).minDistance ∧
      (applyOps s ops).minDistance + 1 ≤ (applyOps s ops).maxDistance := by
  induction ops generalizing s with
  | nil => exact h
  | cons o rest ih => exact ih (applyOp s o) (applyOp_inv s o h)

/-- C9: after any sequence of public service calls from the initial
state, minDistance is nonnegative and maxDistance is at least
minDistance + 1 (setDistanceRange enforces this for every argument pair),
so the normalization denominator of calculateVolumeFromDistance is
strictly positive. -/
theorem c9_distance_range_invariant (ops : List Op) :
    0 ≤ (applyOps initialState ops).minDistance ∧
    (applyOps initialState ops).minDistance + 1 ≤
      (applyOps initialState ops).maxDistance ∧
    0 < (applyOps initialState ops).maxDistance -
      (applyOps initialState ops).minDistance := by
  have h := applyOps_inv ops initialState (by norm_num [initialState])
  exact ⟨h.1, h.2, by linarith [h.1, h.2]⟩

/-- C1: a playing track does not keep its applied playback parameters
until completion: one call to updateSensorDistance on the playing dev1
track (applied gain 0.5 from distance 100) immediately overwrites the
track volume and the value pushed to the gain node with 0.8 while the
track is still playing, with no pending-parameter staging and no notion
of completion in the service at all. -/
theorem c1_update_mutates_applied_params_while_playing :
    ((statePlaying.tracks "dev1").map AudioTrack.volume) = some 0.5 ∧
    ((statePlaying.tracks "dev1").map AudioTrack.playing) = some true ∧
    (((updateSensorDistance statePlaying "dev1" 5).tracks "dev1").map
      AudioTrack.volume) = some 0.8 ∧
    (((updateSensorDistance statePlaying "dev1" 5).tracks "dev1").map
      AudioTrack.playing) = some true ∧
    (((updateSensorDistance statePlaying "dev1" 5).tracks "dev1").map
      AudioTrack.applied) = some (some ⟨0.8, 1, 22050, 0.03⟩) ∧
    (0.8 : ℝ) ≠ 0.5 := by
  norm_num [updateSensorDistance, statePlaying, setTrack, playingTrack,
    calculateVolumeFromDistance, calculateDistanceEffects, normalizedDistance,
    volumeRatio, updateAudioTrack, initialState, effectsAllOff, min_def,
    max_def]

/-- Modelled from the spec: a point of the 2D plane used by the
TrilaterationSolver, whose implementation (the pygame application's
solver) is not under src/. -/
structure Pt where
  x : ℝ
  y : ℝ

/-- Modelled from the spec: a sensor as the solver sees it, a center
position and the current detection radius. -/
structure Sensor where
  center : Pt
  radius : ℝ

/-- Squared Euclidean distance between two points. -/
def dist2 (p q : Pt) : ℝ := (p.x - q.x)^2 + (p.y - q.y)^2

/-- Euclidean distance between two points. -/
def distPt (p q : Pt) : ℝ := Real.sqrt (dist2 p q)

/-- Modelled from the spec: the standard two-circle intersection of
section 4.2 (solver source not under src/): no intersection when the
circles are too far, nested or concentric, otherwise the two symmetric
points at distance a along the center axis, offset by h perpendicular to
it. -/
def circleIntersections (s t : Sensor) : List Pt :=
  let d := distPt s.center t.center
  if d > s.radius + t.radius ∨ d < |s.radius - t.radius| ∨ d = 0 then []
  else
    let a := (s.radius^2 - t.radius^2 + d^2) / (2 * d)
    let h := Real.sqrt (max 0 (s.radius^2 - a^2))
    let px := s.center.x + a * (t.center.x - s.center.x) / d
    let py := s.center.y + a * (t.center.y - s.center.y) / d
    let ox := h * (t.center.y - s.center.y) / d
    let oy := h * (t.center.x - s.center.x) / d
    [⟨px + ox, py - oy⟩, ⟨px - ox, py + oy⟩]

/-- Shoelace area of a candidate triangle. -/
def triangleArea (t : Pt × Pt × Pt) : ℝ :=
  |t.1.x * (t.2.1.y - t.2.2.y) + t.2.1.x * (t.2.2.y - t.1.y) +
    t.2.2.x * (t.1.y - t.2.1.y)| / 2

/-- Centroid of a candidate triangle. -/
def centroid (t : Pt × Pt × Pt) : Pt :=
  ⟨(t.1.x + t.2.1.x + t.2.2.x) / 3, (t.1.y + t.2.1.y + t.2.2.y) / 3⟩

/-- Solver configuration: the vertex tolerance and the quality
normalization constant of the spec. -/
structure SolverConfig where
  eps : ℝ
  referenceArea : ℝ

/-- A point lies within tolerance eps of a sensor's circle. -/
def onCircle (cfg : SolverConfig) (p : Pt) (s : Sensor) : Prop :=
  |distPt p s.center - s.radius| ≤ cfg.eps

/-- Modelled from the spec: a candidate triangle is valid when each
vertex lies within tolerance of the two circles it was derived from
(vertex 1 from the pair of sensors 1 and 2, vertex 2 from 1 and 3,
vertex 3 from 2 and 3). -/
def validTriangle (cfg : SolverConfig) (s1 s2 s3 : Sensor)
    (t : Pt × Pt × Pt) : Prop :=
  onCircle cfg t.1 s1 ∧ onCircle cfg t.1 s2 ∧
  onCircle cfg t.2.1 s1 ∧ onCircle cfg t.2.1 s3 ∧
  onCircle cfg t.2.2 s2 ∧ onCircle cfg t.2.2 s3

/-- All candidate triangles: one intersection point from each of the
three sensor pairs. -/
def candidateTriangles (s1 s2 s3 : Sensor) : List (Pt × Pt × Pt) :=
  (circleIntersections s1 s2).flatMap fun p12 =>
    (circleIntersections s1 s3).flatMap fun p13 =>
      (circleIntersections s2 s3).map fun p23 => (p12, p13, p23)

open Classical in
/-- The geometrically valid candidate triangles, in enumeration order. -/
def validCandidates (cfg : SolverConfig) (s1 s2 s3 : Sensor) :
    List (Pt × Pt × Pt) :=
  (candidateTriangles s1 s2 s3).filter fun t =>
    decide (validTriangle cfg s1 s2 s3 t)

/-- The solver result record of the spec. -/
structure EstimatedPosition where
  x : ℝ
  y : ℝ
  triangleArea : ℝ
  quality : ℝ

/-- Modelled from the spec: solve of section 4.2 (solver source not
under src/) on the first three sensors: enumerate candidate triangles
from pairwise circle intersections, validate them, fail when fewer than
3 valid candidates exist, otherwise return the centroid of the triangle
of smallest valid area and quality 1 - min(1, area / referenceArea). -/
def solve (cfg : SolverConfig) (sensors : List Sensor) :
    Option EstimatedPosition :=
  match sensors with
  | s1 :: s2 :: s3 :: _ =>
    let cands := validCandidates cfg s1 s2 s3
    if cands.length < 3 then none
    else
      match cands.argmin triangleArea with
      | none => none
      | some best =>
        some ⟨(centroid best).x, (centroid best).y, triangleArea best,
          1 - min 1 (triangleArea best / cfg.referenceArea)⟩
  | _ => none

lemma sqrt_eval {x c : ℝ} (hc : 0 ≤ c) (h : x = c^2) : Real.sqrt x = c := by
  rw [h]
  exact Real.sqrt_sq hc

/-- Solver configuration used as concrete witness input. -/
def witnessCfg : SolverConfig := ⟨1/10, 1000⟩

/-- Witness sensor at the origin with radius 17/2. -/
def sensorA : Sensor := ⟨⟨0, 0⟩, 17/2⟩

/-- Witness sensor at (14, 0) with radius 25/2. -/
def sensorB : Sensor := ⟨⟨14, 0⟩, 25/2⟩

/-- Witness sensor at (5, 12) with radius 25/2. -/
def sensorC : Sensor := ⟨⟨5, 12⟩, 25/2⟩

lemma sqrt196 : Real.sqrt (196:ℝ) = 14 := sqrt_eval (by norm_num) (by norm_num)

lemma sqrt169 : Real.sqrt (169:ℝ) = 13 := sqrt_eval (by norm_num) (by norm_num)

lemma sqrt225 : Real.sqrt (225:ℝ) = 15 := sqrt_eval (by norm_num) (by norm_num)

lemma sqrt100 : Real.sqrt (100:ℝ) = 10 := sqrt_eval (by norm_num) (by norm_num)

lemma sqrt4 : Real.sqrt (4:ℝ) = 2 := sqrt_eval (by norm_num) (by norm_num)

lemma sqrt10404 : Real.sqrt (10404:ℝ) = 102 :=
  sqrt_eval (by norm_num) (by norm_num)

lemma sqrt289 : Real.sqrt (289:ℝ) = 17 := sqrt_eval (by norm_num) (by norm_num)

lemma sqrt625 : Real.sqrt (625:ℝ) = 25 := sqrt_eval (by norm_num) (by norm_num)

lemma interAB : circleIntersections sensorA sensorB =
    [⟨4, -(15/2)⟩, ⟨4, 15/2⟩] := by
  norm_num [circleIntersections, distPt, dist2, sensorA, sensorB, sqrt196,
    sqrt225, sqrt4, Pt.mk.injEq]

lemma interAC : circleIntersections sensorA sensorC =
    [⟨17/2, 0⟩, ⟨-(2023/338), 1020/169⟩] := by
  norm_num [circleIntersections, distPt, dist2, sensorA, sensorC, sqrt169,
    sqrt10404, Pt.mk.injEq]

lemma interBC : circleIntersections sensorB sensorC =
    [⟨35/2, 12⟩, ⟨3/2, 0⟩] := by
  norm_num [circleIntersections, distPt, dist2, sensorB, sensorC, sqrt225,
    sqrt100, Pt.mk.injEq]

/-- The candidate triangle of smallest area for the witness sensors. -/
def bestTriangle : Pt × Pt × Pt := (⟨4, -(15/2)⟩, ⟨17/2, 0⟩, ⟨35/2, 12⟩)

lemma candidatesEval : candidateTriangles sensorA sensorB sensorC =
    [(⟨4, -(15/2)⟩, ⟨17/2, 0⟩, ⟨35/2, 12⟩),
     (⟨4, -(15/2)⟩, ⟨17/2, 0⟩, ⟨3/2, 0⟩),
     (⟨4, -(15/2)⟩, ⟨-(2023/338), 1020/169⟩, ⟨35/2, 12⟩),
     (⟨4, -(15/2)⟩, ⟨-(2023/338), 1020/169⟩, ⟨3/2, 0⟩),
     (⟨4, 15/2⟩, ⟨17/2, 0⟩, ⟨35/2, 12⟩),
     (⟨4, 15/2⟩, ⟨17/2, 0⟩, ⟨3/2, 0⟩),
     (⟨4, 15/2⟩, ⟨-(2023/338), 1020/169⟩, ⟨35/2, 12⟩),
     (⟨4, 15/2⟩, ⟨-(2023/338), 1020/169⟩, ⟨3/2, 0⟩)] := by
  rw [candidateTriangles, interAB, interAC, interBC]
  rfl

lemma validAll : ∀ t ∈ candidateTriangles sensorA sensorB sensorC,
    validTriangle witnessCfg sensorA sensorB sensorC t := by
  rw [candidatesEval]
  intro t ht
  simp only [List.mem_cons, List.not_mem_nil, or_false] at ht
  rcases ht with h | h | h | h | h | h | h | h <;> subst h <;>
    norm_num [validTriangle, onCircle, distPt, dist2, witnessCfg, sensorA,
      sensorB, sensorC, sqrt289, sqrt625, sqrt4]

open Classical in
lemma validEval : validCandidates witnessCfg sensorA sensorB sensorC =
    candidateTriangles sensorA sensorB sensorC := by
  rw [validCandidates]
  apply List.filter_eq_self.mpr
  intro t ht
  exact decide_eq_true (validAll t ht)

lemma bestMem :
    bestTriangle ∈ validCandidates witnessCfg sensorA sensorB sensorC := by
  rw [validEval, candidatesEval]
  exact List.mem_cons_self _ _

lemma bestMin : ∀ tri' ∈ validCandidates witnessCfg sensorA sensorB sensorC,
    tri' ≠ bestTriangle → triangleArea bestTriangle < triangleArea tri' := by
  rw [validEval, candidatesEval]
  intro tri' h hne
  simp only [List.mem_cons, List.not_mem_nil, or_false] at h
  rcases h with h | h | h | h | h | h | h | h <;> subst h
  · exact absurd rfl hne
  all_goals
    norm_num [triangleArea, bestTriangle, abs_of_nonneg, abs_of_nonpos]

lemma validLen :
    3 ≤ (validCandidates witnessCfg sensorA sensorB sensorC).length := by
  rw [validEval, candidatesEval]
  norm_num

/-- C8: whenever the solver succeeds on at least three sensors and some
valid candidate triangle has strictly smallest area among all candidate
triangles formed from the pairwise circle intersections, the result is
exactly the centroid of that triangle, its area, and the quality score
1 - min(1, area / referenceArea). -/
theorem c8_solver_returns_min_area_centroid (cfg : SolverConfig)
    (s1 s2 s3 : Sensor) (rest : List Sensor) (tri : Pt × Pt × Pt)
    (hmem : tri ∈ validCandidates cfg s1 s2 s3)
    (hmin : ∀ tri' ∈ validCandidates cfg s1 s2 s3, tri' ≠ tri →
      triangleArea tri < triangleArea tri')
    (hlen : 3 ≤ (validCandidates cfg s1 s2 s3).length) :
    solve cfg (s1 :: s2 :: s3 :: rest) =
      some ⟨(centroid tri).x, (centroid tri).y, triangleArea tri,
        1 - min 1 (triangleArea tri / cfg.referenceArea)⟩ := by
  have hne : validCandidates cfg s1 s2 s3 ≠ [] := by
    intro h
    rw [h] at hmem
    exact absurd hmem (List.not_mem_nil tri)
  obtain ⟨m, hm⟩ : ∃ m,
      (validCandidates cfg s1 s2 s3).argmin triangleArea = some m := by
    cases h : (validCandidates cfg s1 s2 s3).argmin triangleArea with
    | none => exact absurd (List.argmin_eq_none.mp h) hne
    | some m => exact ⟨m, rfl⟩
  have hmmem : m ∈ validCandidates cfg s1 s2 s3 := List.argmin_mem hm
  have hle : triangleArea m ≤ triangleArea tri :=
    List.le_of_mem_argmin hmem hm
  have heq : m = tri := by
    by_contra hne2
    exact absurd hle (not_le.mpr (hmin m hmmem hne2))
  subst heq
  simp only [solve]
  rw [if_neg (not_lt.mpr hlen), hm]

/-- Witness for C8: three concrete sensors whose pairwise intersections
are all rational; among the eight candidate triangles the one of area
27/4 is the unique minimum, and the solver returns its centroid (10, 3/2)
with quality 1 - 27/4000. -/
theorem c8_solver_returns_min_area_centroid_witness :
    solve witnessCfg [sensorA, sensorB, sensorC] =
      some ⟨(centroid bestTriangle).x, (centroid bestTriangle).y,
        triangleArea bestTriangle,
        1 - min 1 (triangleArea bestTriangle / witnessCfg.referenceArea)⟩ :=
  c8_solver_returns_min_area_centroid witnessCfg sensorA sensorB sensorC []
    bestTriangle bestMem bestMin validLen

end SpatialAudio
